import Mathlib

/-!
Verification of the navigation-and-state core of `russ` (a terminal feed
reader), shallowly embedded from `src/app.rs`.  The mutable `App` struct
becomes an immutable record, `&mut self` methods become state-passing
functions, and each `Result<(), Error>` method returns a `Step App` value
that records success, a typed error together with the partially mutated
state (Rust's `?` performs an early return, so mutations made before the
failing call survive), or a panic (`unwrap` on `None`/`Err`, out-of-bounds
indexing).

The persistence layer (`crate::rss`), the error enum (`crate::error`) and
the selectable-list helper (`crate::util`) are not part of the provided
source; they are modelled from the specification and marked as such.
Machine integers: `scroll` is a `u16` manipulated only through
`checked_add`/`checked_sub`, modelled by `Nat` with explicit bound checks;
the `usize` expression `self.entries.items.len() - 1` is modelled with the
release-profile wrapping semantics of unsigned subtraction, i.e. modulo
`2 ^ 64`.
-/

namespace Russ

/-- Modelled from the spec (§7 Error handling design): the error kinds of the
missing `crate::error::Error` enum. -/
inductive Error where
  | storage
  | notFound
  | network
  | invalidInput
deriving DecidableEq

/-- Modelled from the spec (§3 Data model): the missing `crate::rss::Feed`
record, restricted to the fields the navigation core reads. -/
structure Feed where
  id : Int
  title : String
deriving DecidableEq

/-- Modelled from the spec (§3 Data model): the missing `crate::rss::Entry`
record, restricted to the fields the navigation core reads. -/
structure Entry where
  id : Int
  feed_id : Int
  title : String
  content : Option String
  description : Option String
  read : Bool
deriving DecidableEq

/-- Embeds `enum ReadMode` (src/app.rs lines 18-22). -/
inductive ReadMode where
  | showAll
  | showUnread
deriving DecidableEq

/-- Embeds `enum Mode` (src/app.rs lines 12-16). -/
inductive Mode where
  | editing
  | normal
deriving DecidableEq

/-- Embeds `enum Selected` (src/app.rs lines 5-10): the active panel, the
`entry` variant carrying a full snapshot of the entry being read. -/
inductive Selected where
  | feeds
  | entries
  | entry (e : Entry)
deriving DecidableEq

/-- Embeds `util::StatefulList<T>`: an ordered sequence plus an optional
selected index (the `tui` `ListState`).  `crate::util` is not in the
provided source; the shape is taken from the spec (§3, §4.1). -/
structure StatefulList (α : Type) where
  items : List α
  selected : Option Nat
deriving DecidableEq

/-- Embeds `ListState::select`: store the given optional index. -/
def StatefulList.select {α : Type} (l : StatefulList α) (i : Option Nat) :
    StatefulList α :=
  { l with selected := i }

/-- Modelled from the spec (§4.1 Selectable List, `crate::util` missing from
the source): `next()` advances the selected index by one, wrapping to 0 past
the end; a no-op on an empty list; first call with no selection selects 0. -/
def StatefulList.next {α : Type} (l : StatefulList α) : StatefulList α :=
  if l.items.isEmpty then l
  else
    match l.selected with
    | none => { l with selected := some 0 }
    | some i =>
        { l with selected := some (if i + 1 < l.items.length then i + 1 else 0) }

/-- Modelled from the spec (§4.1 Selectable List, `crate::util` missing from
the source): `previous()` decrements the selected index by one, wrapping to
the last index below 0; a no-op on an empty list; first call with no
selection selects 0. -/
def StatefulList.previous {α : Type} (l : StatefulList α) : StatefulList α :=
  if l.items.isEmpty then l
  else
    match l.selected with
    | none => { l with selected := some 0 }
    | some 0 => { l with selected := some (l.items.length - 1) }
    | some (i + 1) => { l with selected := some i }

/-- Modelled from the spec (§6 External interfaces): the store gateway
implemented by the missing `crate::rss` module.  `W` is the state of the
persistent store reachable through the `rusqlite::Connection`; operations
that mutate storage (`refresh_feed`, `toggle_read`) return the new store
state. -/
structure Gateway (W : Type) where
  get_feed_titles : W → Except Error (List (Int × String))
  get_feed : W → Int → Except Error Feed
  get_entries : W → ReadMode → Int → Except Error (List Entry)
  get_entry : W → Int → Except Error Entry
  refresh_feed : W → Int → Except Error W
  toggle_read : W → Int → Except Error W

/-- Outcome of one `&mut self` method returning `Result<(), Error>`:
success with the new state, a typed error carrying the state as mutated
before the failing call (no rollback), or a panic. -/
inductive Step (α : Type) where
  | ok : α → Step α
  | err : Error → α → Step α
  | panic : Step α
deriving DecidableEq

/-- Sequencing that mirrors Rust's `?`: an `Err` or panic short-circuits. -/
def Step.andThen {α : Type} (s : Step α) (f : α → Step α) : Step α :=
  match s with
  | .ok a => f a
  | .err e a => .err e a
  | .panic => .panic

/-- The state carried by a non-panicking outcome. -/
def Step.state? {α : Type} : Step α → Option α
  | .ok a => some a
  | .err _ a => some a
  | .panic => none

/-- The state carried by the outcome, with a default for the panic case. -/
def Step.stateD {α : Type} (s : Step α) (d : α) : α :=
  match s with
  | .ok a => a
  | .err _ a => a
  | .panic => d

/-- Embeds Rust's `Result::unwrap` applied to a `Result<(), Error>` value:
`Err` becomes a panic (used by `on_key` for the move-right action). -/
def Step.unwrapPanic {α : Type} : Step α → Step α
  | .ok a => .ok a
  | .err _ _ => .panic
  | .panic => .panic

/-- Whether the outcome is a typed error (Rust's `Result::is_err`). -/
def Step.isErr {α : Type} : Step α → Bool
  | .err _ _ => true
  | _ => false

/-- The modulus of Rust's 64-bit `usize`. -/
def USIZE_MOD : Nat := 18446744073709551616

/-- Embeds `u16::checked_sub`. -/
def u16_checked_sub (a b : Nat) : Option Nat :=
  if b ≤ a then some (a - b) else none

/-- Embeds `u16::checked_add`: `none` when the sum exceeds `u16::MAX`. -/
def u16_checked_add (a b : Nat) : Option Nat :=
  if a + b ≤ 65535 then some (a + b) else none

/-- Embeds `struct App` (src/app.rs lines 24-44).  `conn` holds the store
state `W` reachable through the connection.  The decorative `progress`
float, the window `title`, `database_path` and `enhanced_graphics` carry no
navigation state and are omitted. -/
structure App (W : Type) where
  conn : W
  should_quit : Bool
  error_flash : Option Error
  feed_titles : StatefulList (Int × String)
  entries : StatefulList Entry
  selected : Selected
  scroll : Nat
  current_entry : Option Entry
  current_entry_text : List String
  current_feed : Option Feed
  input : String
  mode : Mode
  read_mode : ReadMode
  entry_selection_position : Nat
deriving DecidableEq

variable {W : Type}

/-- Embeds `App::update_feed_titles` (src/app.rs lines 86-90): replace the
feed-titles list wholesale (`.into()` produces a list with no selection). -/
def update_feed_titles (g : Gateway W) (app : App W) : Step (App W) :=
  match g.get_feed_titles app.conn with
  | .error e => .err e app
  | .ok ts => .ok { app with feed_titles := ⟨ts, none⟩ }

/-- Embeds `App::update_current_feed` (src/app.rs lines 98-116): empty
feed-titles list clears the current feed; otherwise select row 0 when no row
is selected, then fetch the feed record for the selected row's id (the
`self.feed_titles.items[selected_idx]` indexing panics when the selected
index is out of bounds). -/
def update_current_feed (g : Gateway W) (app : App W) : Step (App W) :=
  if app.feed_titles.items.isEmpty then
    .ok { app with current_feed := none }
  else
    let idxApp : Nat × App W :=
      match app.feed_titles.selected with
      | some idx => (idx, app)
      | none => (0, { app with feed_titles := app.feed_titles.select (some 0) })
    match (idxApp.2).feed_titles.items.get? idxApp.1 with
    | none => .panic
    | some (feed_id, _) =>
        match g.get_feed (idxApp.2).conn feed_id with
        | .error e => .err e idxApp.2
        | .ok feed => .ok { idxApp.2 with current_feed := some feed }

/-- Embeds `App::update_current_entries` (src/app.rs lines 118-139): with a
current feed, replace the entries list by the store's entries filtered by
the active read mode; then restore the selection: the remembered
`entry_selection_position` if it is in range, else `len() - 1` — an unsigned
`usize` subtraction modelled with wrapping (release-profile) semantics, so
an empty list selects index `USIZE_MOD - 1`. -/
def update_current_entries (g : Gateway W) (app : App W) : Step (App W) :=
  let fetched : Except Error (List Entry) :=
    match app.current_feed with
    | some feed => g.get_entries app.conn app.read_mode feed.id
    | none => .ok []
  match fetched with
  | .error e => .err e app
  | .ok l =>
      let app1 : App W := { app with entries := ⟨l, none⟩ }
      if app1.entry_selection_position < app1.entries.items.length then
        .ok { app1 with
              entries := app1.entries.select (some app1.entry_selection_position) }
      else
        .ok { app1 with
              entries := app1.entries.select
                (some ((app1.entries.items.length + (USIZE_MOD - 1)) % USIZE_MOD)) }

/-- Embeds `App::update_current_feed_and_entries` (src/app.rs lines 92-96). -/
def update_current_feed_and_entries (g : Gateway W) (app : App W) :
    Step (App W) :=
  Step.andThen (update_current_feed g app) (fun a => update_current_entries g a)

/-- Embeds `App::get_selected_entry` (src/app.rs lines 152-162): when a row
is selected and in range, fetch the full entry record for its id. -/
def get_selected_entry (g : Gateway W) (app : App W) :
    Option (Except Error Entry) :=
  match app.entries.selected with
  | some idx =>
      match (app.entries.items.get? idx).map (fun item => item.id) with
      | some entry_id => some (g.get_entry app.conn entry_id)
      | none => none
  | none => none

/-- Embeds `App::on_up` (src/app.rs lines 164-188).  In `Feeds`, move the
feed selection up and reload feed plus entries.  In `Entries` (non-empty),
move the entry selection up, remember the new position
(`selected().unwrap()`, a panic when no row is selected), and reload the
current entry.  In `Entry`, decrement the scroll with `checked_sub`
(no change at 0). -/
def on_up (g : Gateway W) (app : App W) : Step (App W) :=
  match app.selected with
  | Selected.feeds =>
      update_current_feed_and_entries g
        { app with feed_titles := app.feed_titles.previous }
  | Selected.entries =>
      if app.entries.items.isEmpty then .ok app
      else
        let app1 : App W := { app with entries := app.entries.previous }
        match app1.entries.selected with
        | none => .panic
        | some pos =>
            let app2 : App W := { app1 with entry_selection_position := pos }
            match get_selected_entry g app2 with
            | some (.error e) => .err e app2
            | some (.ok entry) => .ok { app2 with current_entry := some entry }
            | none => .ok app2
  | Selected.entry _ =>
      .ok { app with scroll :=
            match u16_checked_sub app.scroll 1 with
            | some n => n
            | none => app.scroll }

/-- Embeds `App::on_down` (src/app.rs lines 190-214).  Symmetric to `on_up`;
in `Entry`, increment the scroll with `checked_add` (no change at
`u16::MAX`). -/
def on_down (g : Gateway W) (app : App W) : Step (App W) :=
  match app.selected with
  | Selected.feeds =>
      update_current_feed_and_entries g
        { app with feed_titles := app.feed_titles.next }
  | Selected.entries =>
      if app.entries.items.isEmpty then .ok app
      else
        let app1 : App W := { app with entries := app.entries.next }
        match app1.entries.selected with
        | none => .panic
        | some pos =>
            let app2 : App W := { app1 with entry_selection_position := pos }
            match get_selected_entry g app2 with
            | some (.error e) => .err e app2
            | some (.ok entry) => .ok { app2 with current_entry := some entry }
            | none => .ok app2
  | Selected.entry _ =>
      .ok { app with scroll :=
            match u16_checked_add app.scroll 1 with
            | some n => n
            | none => app.scroll }

/-- Embeds `App::on_enter` (src/app.rs lines 248-291).  In `Entries` with a
non-empty list and a current entry: resolve the display text (content, else
description, else a fixed placeholder), render it through the external
`html2text` collaborator `h2t`, split into lines each rejoined with a
newline, snapshot the entry into `Selected::Entry` and store the text.
Otherwise a no-op. -/
def on_enter (h2t : String → String) (app : App W) : Step (App W) :=
  match app.selected with
  | Selected.entries =>
      if app.entries.items.isEmpty then .ok app
      else
        match app.current_entry with
        | none => .ok app
        | some entry =>
            let empty_string := "No content or description tag provided."
            let entry_text :=
              ((entry.content).orElse (fun _ => entry.description)).getD
                empty_string
            let text :=
              ((h2t entry_text).splitOn "\n").map (fun line => line ++ "\n")
            .ok { app with selected := Selected.entry entry,
                           current_entry_text := text }
  | _ => .ok app

/-- Embeds `App::on_right` (src/app.rs lines 216-232).  In `Feeds` with a
non-empty entries list: switch to `Entries`, select row 0 and load that
row's entry as current; with an empty list, do nothing.  In `Entries`,
delegate to `on_enter`.  In `Entry`, a no-op. -/
def on_right (g : Gateway W) (h2t : String → String) (app : App W) :
    Step (App W) :=
  match app.selected with
  | Selected.feeds =>
      if app.entries.items.isEmpty then .ok app
      else
        let app1 : App W := { app with selected := Selected.entries,
                                       entries := app.entries.select (some 0) }
        match get_selected_entry g app1 with
        | some (.error e) => .err e app1
        | some (.ok entry) => .ok { app1 with current_entry := some entry }
        | none => .ok app1
  | Selected.entries => on_enter h2t app
  | Selected.entry _ => .ok app

/-- Embeds `App::on_left` (src/app.rs lines 234-246): from `Entries` back to
`Feeds`; from `Entry`, clear the scroll to 0, discard the display text and
return to `Entries`; in `Feeds`, a no-op.  Infallible. -/
def on_left (app : App W) : App W :=
  match app.selected with
  | Selected.feeds => app
  | Selected.entries => { app with selected := Selected.feeds }
  | Selected.entry _ =>
      { app with scroll := 0,
                 current_entry_text := [],
                 selected := Selected.entries }

/-- Embeds `App::on_esc` (src/app.rs lines 293-299): from `Entry` back to
`Entries` (the scroll and display text are left untouched); otherwise a
no-op. -/
def on_esc (app : App W) : App W :=
  match app.selected with
  | Selected.entry _ => { app with selected := Selected.entries }
  | _ => app

/-- Embeds `App::on_refresh` (src/app.rs lines 301-307):
`self.feed_titles.state.selected().unwrap()` panics when no feed row is
selected, and the `self.feed_titles.items[selected_idx]` indexing panics
when the selection is out of bounds; otherwise ask the store to refresh the
selected feed's entries and reload the current feed and entries. -/
def on_refresh (g : Gateway W) (app : App W) : Step (App W) :=
  match app.feed_titles.selected with
  | none => .panic
  | some selected_idx =>
      match app.feed_titles.items.get? selected_idx with
      | none => .panic
      | some (feed_id, _) =>
          match g.refresh_feed app.conn feed_id with
          | .error e => .err e app
          | .ok w =>
              update_current_feed_and_entries g { app with conn := w }

/-- Embeds `App::toggle_read` (src/app.rs lines 309-336).  In `Entry`: flip
the snapshotted entry's read flag in the store, reload the entries list,
reload the current entry, return to `Entries` and reset the scroll to 0.
In `Entries` with a current entry: the same without the state change and
scroll reset.  In `Feeds`, a no-op. -/
def toggle_read (g : Gateway W) (app : App W) : Step (App W) :=
  match app.selected with
  | Selected.entry entry =>
      match g.toggle_read app.conn entry.id with
      | .error e => .err e app
      | .ok w =>
          Step.andThen (update_current_entries g { app with conn := w })
            (fun app1 =>
              match get_selected_entry g app1 with
              | some (.error e) => .err e app1
              | some (.ok en) =>
                  .ok { app1 with current_entry := some en,
                                  selected := Selected.entries,
                                  scroll := 0 }
              | none =>
                  .ok { app1 with selected := Selected.entries, scroll := 0 })
  | Selected.entries =>
      match app.current_entry with
      | none => .ok app
      | some entry =>
          match g.toggle_read app.conn entry.id with
          | .error e => .err e app
          | .ok w =>
              Step.andThen (update_current_entries g { app with conn := w })
                (fun app1 =>
                  match get_selected_entry g app1 with
                  | some (.error e) => .err e app1
                  | some (.ok en) => .ok { app1 with current_entry := some en }
                  | none => .ok app1)
  | Selected.feeds => .ok app

/-- Embeds the `match (&self.read_mode, &self.selected)` block of
`App::toggle_read_mode` (src/app.rs lines 339-348): flip the read mode in
the `Feeds`/`Entries` panels, leave it unchanged in `Entry`. -/
def toggle_mode_flip (app : App W) : App W :=
  match app.read_mode, app.selected with
  | ReadMode.showAll, Selected.feeds =>
      { app with read_mode := ReadMode.showUnread }
  | ReadMode.showAll, Selected.entries =>
      { app with read_mode := ReadMode.showUnread }
  | ReadMode.showUnread, Selected.feeds =>
      { app with read_mode := ReadMode.showAll }
  | ReadMode.showUnread, Selected.entries =>
      { app with read_mode := ReadMode.showAll }
  | _, _ => app

/-- Embeds the tail of `App::toggle_read_mode` (src/app.rs lines 349-362):
after the reload, select row 0 when the entries list is non-empty and clear
the selection when it is empty, then reload the current entry from the
selection. -/
def toggle_reselect (g : Gateway W) (app1 : App W) : Step (App W) :=
  let app2 : App W :=
    if ¬ app1.entries.items.isEmpty then
      { app1 with entries := app1.entries.select (some 0) }
    else
      { app1 with entries := app1.entries.select none }
  match get_selected_entry g app2 with
  | some (.error e) => .err e app2
  | some (.ok en) => .ok { app2 with current_entry := some en }
  | none => .ok app2

/-- Embeds `App::toggle_read_mode` (src/app.rs lines 338-363): flip the read
mode (list panels only), reload the entries under the new filter, reselect,
and reload the current entry. -/
def toggle_read_mode (g : Gateway W) (app : App W) : Step (App W) :=
  Step.andThen (update_current_entries g (toggle_mode_flip app))
    (fun a => toggle_reselect g a)

/-- Embeds `App::on_key` (src/app.rs lines 365-388): the key-to-action
dispatch.  Every fallible handler is sequenced with `?` except move-right:
`'l' => self.on_right().unwrap()` turns an `Err` into a panic. -/
def on_key (g : Gateway W) (h2t : String → String) (c : Char) (app : App W) :
    Step (App W) :=
  match c with
  | 'q' => .ok { app with should_quit := true }
  | 'h' => .ok (on_left app)
  | 'j' => Step.andThen (on_down g app) (fun a => .ok a)
  | 'k' => Step.andThen (on_up g app) (fun a => .ok a)
  | 'l' => Step.unwrapPanic (on_right g h2t app)
  | 'r' =>
      match app.selected with
      | Selected.feeds => on_refresh g app
      | _ => toggle_read g app
  | 'a' => Step.andThen (toggle_read_mode g app) (fun a => .ok a)
  | 'e' => .ok { app with mode := Mode.editing }
  | 'i' => .ok { app with mode := Mode.editing }
  | _ => .ok app

/-- Embeds `App::new` (src/app.rs lines 46-84): the connection opening and
database initialisation are abstracted into the given store state `conn`;
the fields start as written in the source, then the feed titles and the
current feed and entries are reloaded. -/
def App.new (g : Gateway W) (conn : W) : Step (App W) :=
  let app : App W :=
    { conn := conn
      should_quit := false
      error_flash := none
      feed_titles := ⟨[], none⟩
      entries := ⟨[], none⟩
      selected := Selected.feeds
      scroll := 0
      current_entry := none
      current_entry_text := []
      current_feed := none
      input := ""
      mode := Mode.normal
      read_mode := ReadMode.showUnread
      entry_selection_position := 0 }
  Step.andThen (update_feed_titles g app)
    (fun a => update_current_feed_and_entries g a)

/-- The flipped read mode; `toggle_mode_flip` applies exactly this flip in
the list panels. -/
def otherMode : ReadMode → ReadMode
  | ReadMode.showAll => ReadMode.showUnread
  | ReadMode.showUnread => ReadMode.showAll

/-- Runs a sequence of scroll moves (`true` is move-up, `false` is
move-down), carrying the state of each successful or failed step forward. -/
def applyMoves (g : Gateway W) : List Bool → App W → App W
  | [], a => a
  | up :: rest, a =>
      let s := if up then on_up g a else on_down g a
      applyMoves g rest (s.stateD a)

/-- The app fields that none of the reload helpers
(`update_feed_titles`, `update_current_feed`, `update_current_entries`,
`toggle_reselect`) write: panel, read mode, input mode, scroll, quit flag,
remembered entry position, display text and connection. -/
def PreservesNav (a s : App W) : Prop :=
  s.selected = a.selected ∧ s.read_mode = a.read_mode ∧ s.mode = a.mode ∧
  s.scroll = a.scroll ∧ s.should_quit = a.should_quit ∧
  s.entry_selection_position = a.entry_selection_position ∧
  s.current_entry_text = a.current_entry_text ∧ s.conn = a.conn

/-! Concrete store states and apps used to evaluate the theorems. -/

/-- A sample unread entry with content. -/
def e1 : Entry :=
  { id := 1, feed_id := 1, title := "E1", content := some "hello",
    description := none, read := false }

/-- A second sample entry, read, with only a description. -/
def e2 : Entry :=
  { id := 2, feed_id := 1, title := "E2", content := none,
    description := some "world", read := true }

/-- A sample feed. -/
def f1 : Feed := { id := 1, title := "F1" }

/-- An identity stand-in for the external `html2text` collaborator. -/
def h2tId : String → String := fun s => s

/-- A store with one feed and one entry where every call succeeds. -/
def gOK : Gateway Unit :=
  { get_feed_titles := fun _ => .ok [(1, "F1")]
    get_feed := fun _ _ => .ok f1
    get_entries := fun _ _ _ => .ok [e1]
    get_entry := fun _ _ => .ok e1
    refresh_feed := fun w _ => .ok w
    toggle_read := fun w _ => .ok w }

/-- Like `gOK` but the feed currently has no entries under any filter. -/
def gEmpty : Gateway Unit :=
  { gOK with get_entries := fun _ _ _ => .ok [] }

/-- Like `gOK` but fetching a single entry fails with a storage error. -/
def gFail : Gateway Unit :=
  { gOK with get_entry := fun _ _ => .error .storage }

/-- A baseline app: one feed selected, one entry listed, `Feeds` panel. -/
def app0 : App Unit :=
  { conn := ()
    should_quit := false
    error_flash := none
    feed_titles := ⟨[(1, "F1")], some 0⟩
    entries := ⟨[e1], none⟩
    selected := Selected.feeds
    scroll := 0
    current_entry := none
    current_entry_text := []
    current_feed := some f1
    input := ""
    mode := Mode.normal
    read_mode := ReadMode.showUnread
    entry_selection_position := 0 }

/-- An app reading entry `e1` in the `Entry` panel, scrolled down 5 lines. -/
def appEntry : App Unit :=
  { app0 with selected := Selected.entry e1, scroll := 5,
              current_entry := some e1, current_entry_text := ["line"],
              entries := ⟨[e1], some 0⟩ }

/-- An app in the `Entry` panel scrolled to the `u16` maximum. -/
def appEntryMax : App Unit :=
  { app0 with selected := Selected.entry e1, scroll := 65535,
              current_entry := some e1, entries := ⟨[e1], some 0⟩ }

/-- An app with no subscribed feeds and hence no feed selection. -/
def appNoFeeds : App Unit :=
  { app0 with feed_titles := ⟨[], none⟩, current_feed := none,
              entries := ⟨[], none⟩ }

/-- The state after reloading `app0`'s entries when the store returns no
entries. -/
def c1res : App Unit := (update_current_entries gEmpty app0).stateD app0

/-- The state after toggling the read flag from the `Entry` panel. -/
def c2res : App Unit := (toggle_read gOK appEntry).stateD appEntry

/-- The partially mutated state carried by the move-right store error. -/
def c3errApp : App Unit := (on_right gFail h2tId app0).stateD app0

/-- The state after one read-mode toggle from `app0`. -/
def c4res : App Unit := (toggle_read_mode gOK app0).stateD app0

/-- The state after a second read-mode toggle. -/
def c8res : App Unit := (toggle_read_mode gOK c4res).stateD c4res

/-- The state after one scroll-down in `appEntryMax`. -/
def c6res : App Unit := (on_down gOK appEntryMax).stateD appEntryMax

/-- The state after toggling read-mode from the `Entry` panel over the
store with no entries. -/
def c9res : App Unit := (toggle_read_mode gEmpty appEntry).stateD appEntry

/-- The freshly constructed app over the one-feed store. -/
def c10res : App Unit := (App.new gOK ()).stateD app0

/-! Helper lemmas. -/

/-- Sequencing succeeds exactly when both halves succeed in order. -/
theorem Step.andThen_ok {α : Type} {s : Step α} {f : α → Step α} {r : α}
    (h : Step.andThen s f = Step.ok r) :
    ∃ m, s = Step.ok m ∧ f m = Step.ok r := by
  cases s with
  | ok a => exact ⟨a, rfl, h⟩
  | err e a => simp [Step.andThen] at h
  | panic => simp [Step.andThen] at h

/-- The state carried by a sequenced outcome comes either from the second
half run on the first half's success state, or from the first half's
error. -/
theorem Step.andThen_state {α : Type} {s : Step α} {f : α → Step α} {r : α}
    (h : (Step.andThen s f).state? = some r) :
    (∃ m, s = Step.ok m ∧ (f m).state? = some r) ∨ (∃ e, s = Step.err e r) := by
  cases s with
  | ok a => exact Or.inl ⟨a, rfl, h⟩
  | err e a =>
      simp [Step.andThen, Step.state?] at h
      exact Or.inr ⟨e, by rw [h]⟩
  | panic => simp [Step.andThen, Step.state?] at h

/-- Sequencing with a pure continuation changes nothing. -/
theorem Step.andThen_pure {α : Type} (s : Step α) :
    Step.andThen s (fun a => Step.ok a) = s := by
  cases s <;> rfl

/-- With a current feed whose entries fetch succeeds, the entries reload
replaces the list and re-selects: the remembered position when in range,
else the wrapped `len - 1`. -/
theorem update_current_entries_ok_char (g : Gateway W) (a : App W) (f : Feed)
    (l : List Entry) (hf : a.current_feed = some f)
    (hl : g.get_entries a.conn a.read_mode f.id = Except.ok l) :
    update_current_entries g a = Step.ok
      { a with entries :=
          ⟨l, some (if a.entry_selection_position < l.length then
                      a.entry_selection_position
                    else (l.length + (USIZE_MOD - 1)) % USIZE_MOD)⟩ } := by
  unfold update_current_entries
  rw [hf]
  dsimp only
  rw [hl]
  dsimp only [StatefulList.select]
  split <;> simp_all

/-- With no current feed, the entries reload installs the empty list and
selects the wrapped index `USIZE_MOD - 1`. -/
theorem update_current_entries_none_char (g : Gateway W) (a : App W)
    (hf : a.current_feed = none) :
    update_current_entries g a = Step.ok
      { a with entries := ⟨[], some (USIZE_MOD - 1)⟩ } := by
  unfold update_current_entries
  rw [hf]
  dsimp only [StatefulList.select]
  norm_num [USIZE_MOD]

/-- The entries reload never panics. -/
theorem update_current_entries_no_panic (g : Gateway W) (a : App W) :
    update_current_entries g a ≠ Step.panic := by
  unfold update_current_entries
  rcases ha : a.current_feed with _ | f
  · dsimp only
    split <;> simp
  · dsimp only
    rcases hg : g.get_entries a.conn a.read_mode f.id with e | l
    · simp
    · dsimp only
      split <;> simp

/-- The feed-titles reload only rewrites the feed-titles list. -/
theorem update_feed_titles_state (g : Gateway W) (a s : App W)
    (h : (update_feed_titles g a).state? = some s) :
    PreservesNav a s ∧ s.current_entry = a.current_entry ∧
      s.current_feed = a.current_feed ∧ s.entries = a.entries := by
  unfold update_feed_titles at h
  split at h <;> simp [Step.state?] at h <;> subst h <;> simp [PreservesNav]

/-- The current-feed reload only rewrites the current feed and possibly the
feed-titles selection. -/
theorem update_current_feed_state (g : Gateway W) (a s : App W)
    (h : (update_current_feed g a).state? = some s) :
    PreservesNav a s ∧ s.current_entry = a.current_entry ∧
      s.entries = a.entries ∧ s.feed_titles.items = a.feed_titles.items := by
  unfold update_current_feed at h
  split at h
  · simp [Step.state?] at h
    subst h
    simp [PreservesNav]
  · dsimp only at h
    split at h
    · simp [Step.state?] at h
    · split at h <;> simp [Step.state?] at h <;> subst h <;>
        simp [PreservesNav, StatefulList.select] <;>
        split <;> simp [StatefulList.select]

/-- The entries reload only rewrites the entries list and its selection. -/
theorem update_current_entries_state (g : Gateway W) (a s : App W)
    (h : (update_current_entries g a).state? = some s) :
    PreservesNav a s ∧ s.current_entry = a.current_entry ∧
      s.current_feed = a.current_feed ∧ s.feed_titles = a.feed_titles := by
  unfold update_current_entries at h
  dsimp only at h
  split at h
  · simp [Step.state?] at h
    subst h
    simp [PreservesNav]
  · split at h <;> simp [Step.state?] at h <;> subst h <;>
      simp [PreservesNav, StatefulList.select]

/-- The reselect step of the read-mode toggle only rewrites the entries
selection and possibly the current entry. -/
theorem toggle_reselect_state (g : Gateway W) (a s : App W)
    (h : (toggle_reselect g a).state? = some s) :
    PreservesNav a s ∧ s.current_feed = a.current_feed ∧
      s.feed_titles = a.feed_titles ∧ s.entries.items = a.entries.items := by
  unfold toggle_reselect at h
  dsimp only at h
  split at h <;> split at h <;> simp [Step.state?] at h <;> subst h <;>
    simp [PreservesNav, StatefulList.select]

/-- In the list panels the read-mode match flips the mode. -/
theorem toggle_mode_flip_list (app : App W)
    (h : app.selected = Selected.feeds ∨ app.selected = Selected.entries) :
    toggle_mode_flip app = { app with read_mode := otherMode app.read_mode } := by
  rcases h with h | h <;> rw [toggle_mode_flip, h] <;>
    cases hm : app.read_mode <;> simp [otherMode]

/-- In the `Entry` panel the read-mode match leaves the app unchanged. -/
theorem toggle_mode_flip_entry (app : App W) (e : Entry)
    (h : app.selected = Selected.entry e) :
    toggle_mode_flip app = app := by
  rw [toggle_mode_flip, h]
  cases hm : app.read_mode <;> rfl

/-- Flipping the read mode twice is the identity. -/
theorem otherMode_otherMode (m : ReadMode) : otherMode (otherMode m) = m := by
  cases m <;> rfl

/-- The read-mode match never changes which panel is selected. -/
theorem toggle_mode_flip_selected (app : App W) :
    (toggle_mode_flip app).selected = app.selected := by
  unfold toggle_mode_flip
  split <;> rfl

/-- Any state carried out of a read-mode toggle keeps the panel and carries
the flipped mode (the flip happens before any store call, so it survives
even a failing reload). -/
theorem toggle_read_mode_state (g : Gateway W) (app s : App W)
    (h : (toggle_read_mode g app).state? = some s) :
    s.selected = app.selected ∧
      s.read_mode = (toggle_mode_flip app).read_mode := by
  unfold toggle_read_mode at h
  rcases Step.andThen_state h with ⟨m, hm, hres⟩ | ⟨e, herr⟩
  · have h1 := update_current_entries_state g (toggle_mode_flip app) m
      (by rw [hm]; rfl)
    have h2 := toggle_reselect_state g m s hres
    obtain ⟨⟨p1, p2, _⟩, _⟩ := h1
    obtain ⟨⟨q1, q2, _⟩, _⟩ := h2
    constructor
    · rw [q1, p1, toggle_mode_flip_selected]
    · rw [q2, p2]
  · have h1 := update_current_entries_state g (toggle_mode_flip app) s
      (by rw [herr]; rfl)
    obtain ⟨⟨p1, p2, _⟩, _⟩ := h1
    constructor
    · rw [p1, toggle_mode_flip_selected]
    · exact p2

/-- Reselecting after a reload that produced an empty list clears the
selection and leaves the rest of the state alone. -/
theorem toggle_reselect_nil (g : Gateway W) (a : App W)
    (ha : a.entries.items = []) :
    toggle_reselect g a = Step.ok { a with entries := a.entries.select none } := by
  unfold toggle_reselect
  rw [ha]
  dsimp only
  unfold get_selected_entry
  simp [StatefulList.select]

/-- Reselecting after a reload that produced a non-empty list selects row 0
and reloads the current entry from the store. -/
theorem toggle_reselect_cons (g : Gateway W) (a : App W) (hd : Entry)
    (tl : List Entry) (ha : a.entries.items = hd :: tl) :
    toggle_reselect g a =
      match g.get_entry a.conn hd.id with
      | Except.error e =>
          Step.err e { a with entries := a.entries.select (some 0) }
      | Except.ok en =>
          Step.ok { a with entries := a.entries.select (some 0),
                           current_entry := some en } := by
  unfold toggle_reselect
  rw [ha]
  dsimp only
  unfold get_selected_entry
  simp only [StatefulList.select, ha]
  rcases hge : g.get_entry a.conn hd.id with e | en <;> simp [hge]

/-- In the `Entry` panel, move-up decrements the scroll, truncating at 0. -/
theorem on_up_entry (g : Gateway W) (app : App W) (e : Entry)
    (h : app.selected = Selected.entry e) :
    on_up g app = Step.ok { app with scroll := app.scroll - 1 } := by
  unfold on_up
  split
  · simp_all
  · simp_all
  · unfold u16_checked_sub
    rcases hs : app.scroll with _ | n <;> simp [hs]

/-- In the `Entry` panel below the `u16` ceiling, move-down increments the
scroll. -/
theorem on_down_entry_lt (g : Gateway W) (app : App W) (e : Entry)
    (h : app.selected = Selected.entry e) (hlt : app.scroll < 65535) :
    on_down g app = Step.ok { app with scroll := app.scroll + 1 } := by
  unfold on_down
  split
  · simp_all
  · simp_all
  · unfold u16_checked_add
    rw [if_pos (by omega)]

/-- In the `Entry` panel at the `u16` ceiling, move-down leaves the state
unchanged (`checked_add` returns `None`). -/
theorem on_down_entry_max (g : Gateway W) (app : App W) (e : Entry)
    (h : app.selected = Selected.entry e) (hge : 65535 ≤ app.scroll) :
    on_down g app = Step.ok app := by
  unfold on_down
  split
  · simp_all
  · simp_all
  · unfold u16_checked_add
    rw [if_neg (by omega)]

/-- Any sequence of scroll moves in the `Entry` panel keeps the scroll in
the `u16` range and keeps the panel in `Entry`. -/
theorem applyMoves_entry_bound (g : Gateway W) (moves : List Bool) :
    ∀ app : App W, ∀ e : Entry, app.selected = Selected.entry e →
      app.scroll ≤ 65535 →
      (applyMoves g moves app).scroll ≤ 65535 ∧
      (applyMoves g moves app).selected = Selected.entry e := by
  induction moves with
  | nil => intro app e h hb; exact ⟨hb, h⟩
  | cons up rest ih =>
      intro app e h hb
      unfold applyMoves
      dsimp only
      cases up
      · by_cases hlt : app.scroll < 65535
        · rw [if_neg (by simp), on_down_entry_lt g app e h hlt]
          exact ih _ e h (by show app.scroll + 1 ≤ 65535; omega)
        · rw [if_neg (by simp), on_down_entry_max g app e h (by omega)]
          exact ih _ e h hb
      · rw [if_pos rfl, on_up_entry g app e h]
        exact ih _ e h (by show app.scroll - 1 ≤ 65535; omega)

/-- Sequencing cannot introduce a panic that neither half produces. -/
theorem Step.andThen_ne_panic {α : Type} {s : Step α} {f : α → Step α}
    (h1 : s ≠ Step.panic) (h2 : ∀ m, s = Step.ok m → f m ≠ Step.panic) :
    Step.andThen s f ≠ Step.panic := by
  cases s with
  | ok a => exact h2 a rfl
  | err e a => simp [Step.andThen]
  | panic => exact absurd rfl h1

/-- With an in-range feed selection, the current-feed reload cannot
panic. -/
theorem update_current_feed_no_panic (g : Gateway W) (a : App W) (i : Nat)
    (p : Int × String) (hsel : a.feed_titles.selected = some i)
    (hitem : a.feed_titles.items.get? i = some p) :
    update_current_feed g a ≠ Step.panic := by
  unfold update_current_feed
  rw [if_neg (by
    intro hemp
    rw [List.isEmpty_iff] at hemp
    rw [hemp] at hitem
    simp at hitem)]
  dsimp only
  rw [hsel]
  dsimp only
  rw [hitem]
  rcases hf : g.get_feed a.conn p.1 with e | feed <;> simp [hf]

/-- With an in-range feed selection, the combined feed-and-entries reload
cannot panic. -/
theorem update_current_feed_and_entries_no_panic (g : Gateway W) (a : App W)
    (i : Nat) (p : Int × String) (hsel : a.feed_titles.selected = some i)
    (hitem : a.feed_titles.items.get? i = some p) :
    update_current_feed_and_entries g a ≠ Step.panic := by
  unfold update_current_feed_and_entries
  exact Step.andThen_ne_panic
    (update_current_feed_no_panic g a i p hsel hitem)
    (fun m _ => update_current_entries_no_panic g m)

/-! Claim theorems. -/

/-- Claim C1 (confirmed): reloading the entries list with a current feed
replaces the list by the store's filtered entries and restores the
selection: the remembered `entry_selection_position` when it is a valid
index into the new list, otherwise the last valid index `len - 1`; on an
empty list that unsigned subtraction underflows (wrapping to
`USIZE_MOD - 1`), which is not a valid index into the list. -/
theorem claim_c1_update_current_entries_restores_selection (g : Gateway W)
    (app app' : App W) (f : Feed) (l : List Entry)
    (hf : app.current_feed = some f)
    (hlen : l.length < USIZE_MOD)
    (hl : g.get_entries app.conn app.read_mode f.id = Except.ok l)
    (hres : update_current_entries g app = Step.ok app') :
    app'.entries.items = l ∧
    (app.entry_selection_position < l.length →
      app'.entries.selected = some app.entry_selection_position) ∧
    (l ≠ [] → ¬ app.entry_selection_position < l.length →
      app'.entries.selected = some (l.length - 1)) ∧
    (l = [] → app'.entries.selected = some (USIZE_MOD - 1) ∧
      l.length ≤ USIZE_MOD - 1) := by
  rw [update_current_entries_ok_char g app f l hf hl] at hres
  simp only [Step.ok.injEq] at hres
  subst hres
  refine ⟨rfl, ?_, ?_, ?_⟩
  · intro hlt
    simp [hlt]
  · intro hne hge
    simp only [if_neg hge]
    have h1 : 1 ≤ l.length := by
      cases l with
      | nil => exact absurd rfl hne
      | cons a t => simp
    have h2 : l.length + (USIZE_MOD - 1) = (l.length - 1) + USIZE_MOD := by
      simp only [USIZE_MOD] at *
      omega
    rw [h2, Nat.add_mod_right, Nat.mod_eq_of_lt]
    simp only [USIZE_MOD] at *
    omega
  · intro hnil
    subst hnil
    refine ⟨?_, by simp [USIZE_MOD]⟩
    norm_num [USIZE_MOD]

/-- Claim C1 witness: reloading over a store with no entries installs the
empty list and selects the wrapped invalid index `USIZE_MOD - 1`. -/
theorem claim_c1_witness :
    c1res.entries.items = ([] : List Entry) ∧
    c1res.entries.selected = some (USIZE_MOD - 1) :=
  have h := claim_c1_update_current_entries_restores_selection gEmpty app0
    c1res f1 [] rfl (by norm_num [USIZE_MOD]) rfl rfl
  ⟨h.1, (h.2.2.2 rfl).1⟩

/-- Claim C2 counterexample: leaving the `Entry` panel with escape returns
to `Entries` but neither resets the scroll to 0 nor discards the display
text, contradicting the claim that every way of leaving `Entry` resets the
scroll and that escape discards the text. -/
theorem claim_c2_counterexample :
    appEntry.selected = Selected.entry e1 ∧ appEntry.scroll = 5 ∧
    (on_esc appEntry).selected = Selected.entries ∧
    (on_esc appEntry).scroll = 5 ∧ ¬ (on_esc appEntry).scroll = 0 ∧
    (on_esc appEntry).current_entry_text = ["line"] ∧
    ¬ (on_esc appEntry).current_entry_text = [] := by decide

/-- Claim C2 (corrected): leaving the `Entry` panel by move-left resets the
scroll to 0, discards the display text and returns to `Entries`; leaving by
a completed toggle-read returns to `Entries` with scroll 0 but retains the
display text; leaving by escape returns to `Entries` with the scroll and
display text left unchanged. -/
theorem claim_c2_leaving_entry_effects (g : Gateway W) (app app' : App W)
    (e : Entry) (hsel : app.selected = Selected.entry e)
    (htr : toggle_read g app = Step.ok app') :
    (on_left app).selected = Selected.entries ∧ (on_left app).scroll = 0 ∧
    (on_left app).current_entry_text = [] ∧
    (on_esc app).selected = Selected.entries ∧
    (on_esc app).scroll = app.scroll ∧
    (on_esc app).current_entry_text = app.current_entry_text ∧
    app'.selected = Selected.entries ∧ app'.scroll = 0 ∧
    app'.current_entry_text = app.current_entry_text := by
  have hleft : on_left app =
      { app with scroll := 0, current_entry_text := [],
                 selected := Selected.entries } := by
    unfold on_left
    rw [hsel]
  have hesc : on_esc app = { app with selected := Selected.entries } := by
    unfold on_esc
    rw [hsel]
  refine ⟨by rw [hleft], by rw [hleft], by rw [hleft],
          by rw [hesc], by rw [hesc], by rw [hesc], ?_⟩
  unfold toggle_read at htr
  rw [hsel] at htr
  dsimp only at htr
  rcases hw : g.toggle_read app.conn e.id with er | w <;> rw [hw] at htr
  · simp at htr
  · dsimp only at htr
    obtain ⟨m, huce, hk⟩ := Step.andThen_ok htr
    have hm := update_current_entries_state g _ m (by rw [huce]; rfl)
    obtain ⟨⟨_, _, _, _, _, _, htext, _⟩, _⟩ := hm
    split at hk
    · simp at hk
    · simp only [Step.ok.injEq] at hk
      subst hk
      simp_all
    · simp only [Step.ok.injEq] at hk
      subst hk
      simp_all

/-- Claim C2 witness: for a concrete app reading an entry, move-left resets
scroll and text, escape preserves them, and toggle-read returns to
`Entries` with scroll 0 and the text retained. -/
theorem claim_c2_witness :
    (on_left appEntry).selected = Selected.entries ∧
    (on_left appEntry).scroll = 0 ∧
    (on_left appEntry).current_entry_text = [] ∧
    (on_esc appEntry).scroll = appEntry.scroll ∧
    c2res.selected = Selected.entries ∧ c2res.scroll = 0 ∧
    c2res.current_entry_text = appEntry.current_entry_text :=
  have h := claim_c2_leaving_entry_effects gOK appEntry c2res e1 rfl rfl
  ⟨h.1, h.2.1, h.2.2.1, h.2.2.2.2.1, h.2.2.2.2.2.2.1, h.2.2.2.2.2.2.2.1,
   h.2.2.2.2.2.2.2.2⟩

/-- Claim C3 counterexample: with a store whose entry fetch fails, the
move-right handler returns a typed error, but dispatching the same action
through the key handler (`'l' => self.on_right().unwrap()`) turns that
store failure into a panic instead of propagating it. -/
theorem claim_c3_counterexample :
    on_right gFail h2tId app0 = Step.err Error.storage c3errApp ∧
    on_key gFail h2tId 'l' app0 = Step.panic := ⟨rfl, rfl⟩

/-- Claim C3 (corrected): store failures propagate unchanged through the
move-up, move-down, toggle-read-mode, refresh and toggle-read transitions
triggered by the key handler, which forwards each handler's outcome; the
move-right transition is the exception: the key handler unwraps its result,
so a store failure there becomes a panic. -/
theorem claim_c3_on_key_error_propagation (g : Gateway W)
    (h2t : String → String) (app : App W) :
    on_key g h2t 'j' app = on_down g app ∧
    on_key g h2t 'k' app = on_up g app ∧
    on_key g h2t 'a' app = toggle_read_mode g app ∧
    (app.selected = Selected.feeds → on_key g h2t 'r' app = on_refresh g app) ∧
    (app.selected ≠ Selected.feeds →
      on_key g h2t 'r' app = toggle_read g app) ∧
    on_key g h2t 'l' app = Step.unwrapPanic (on_right g h2t app) ∧
    (Step.isErr (on_right g h2t app) = true →
      on_key g h2t 'l' app = Step.panic) := by
  have hj : on_key g h2t 'j' app =
      Step.andThen (on_down g app) (fun a => Step.ok a) := rfl
  have hk : on_key g h2t 'k' app =
      Step.andThen (on_up g app) (fun a => Step.ok a) := rfl
  have ha : on_key g h2t 'a' app =
      Step.andThen (toggle_read_mode g app) (fun a => Step.ok a) := rfl
  have hr : on_key g h2t 'r' app =
      (match app.selected with
       | Selected.feeds => on_refresh g app
       | _ => toggle_read g app) := rfl
  have hl : on_key g h2t 'l' app = Step.unwrapPanic (on_right g h2t app) := rfl
  refine ⟨by rw [hj, Step.andThen_pure], by rw [hk, Step.andThen_pure],
          by rw [ha, Step.andThen_pure], ?_, ?_, hl, ?_⟩
  · intro hfeeds
    rw [hr, hfeeds]
  · intro hne
    rw [hr]
    rcases hs : app.selected with _ | _ | e
    · exact absurd hs hne
    · rfl
    · rfl
  · intro herr
    rw [hl]
    rcases hright : on_right g h2t app with a | ⟨er, s⟩ | _
    · rw [hright] at herr
      simp [Step.isErr] at herr
    · rfl
    · rfl

/-- Claim C3 witness: at a concrete state in the `Feeds` panel over the
failing store, the refresh dispatch forwards the handler's outcome while
the move-right dispatch panics on the store error. -/
theorem claim_c3_witness :
    on_key gFail h2tId 'r' app0 = on_refresh gFail app0 ∧
    on_key gFail h2tId 'l' app0 = Step.panic :=
  have h := claim_c3_on_key_error_propagation gFail h2tId app0
  ⟨h.2.2.2.1 rfl, h.2.2.2.2.2.2 (by decide)⟩

/-- Claim C4 (confirmed): in the `Feeds` or `Entries` panel, toggle-read-
mode flips the read mode, reloads the entries under the new filter, selects
row 0 when the new list is non-empty and clears the selection when it is
empty, and reloads the current entry from the new selection (leaving it
untouched when the selection was cleared). -/
theorem claim_c4_toggle_read_mode_list_panels (g : Gateway W)
    (app app' : App W) (f : Feed) (l : List Entry) (e0 en : Entry)
    (rest : List Entry)
    (hsel : app.selected = Selected.feeds ∨ app.selected = Selected.entries)
    (hf : app.current_feed = some f)
    (hl : g.get_entries app.conn (otherMode app.read_mode) f.id = Except.ok l)
    (hres : toggle_read_mode g app = Step.ok app') :
    app'.read_mode = otherMode app.read_mode ∧
    app'.entries.items = l ∧
    (l = [] → app'.entries.selected = none ∧
      app'.current_entry = app.current_entry) ∧
    (l = e0 :: rest → app'.entries.selected = some 0) ∧
    (l = e0 :: rest → g.get_entry app.conn e0.id = Except.ok en →
      app'.current_entry = some en) := by
  unfold toggle_read_mode at hres
  rw [toggle_mode_flip_list app hsel] at hres
  obtain ⟨m, huce, hrsel⟩ := Step.andThen_ok hres
  rw [update_current_entries_ok_char g _ f l (by simpa using hf)
    (by simpa using hl)] at huce
  simp only [Step.ok.injEq] at huce
  subst huce
  cases l with
  | nil =>
      rw [toggle_reselect_nil g _ (by rfl)] at hrsel
      simp only [Step.ok.injEq] at hrsel
      subst hrsel
      simp [StatefulList.select]
  | cons hd tl =>
      rw [toggle_reselect_cons g _ hd tl (by rfl)] at hrsel
      rcases hge : g.get_entry app.conn hd.id with er | en' <;>
        simp only [hge] at hrsel
      · simp at hrsel
      · simp only [Step.ok.injEq] at hrsel
        subst hrsel
        refine ⟨rfl, rfl, by simp, ?_, ?_⟩
        · intro hcons
          simp [StatefulList.select]
        · intro hcons hgee
          cases hcons
          rw [hge] at hgee
          simp only [Except.ok.injEq] at hgee
          subst hgee
          rfl

/-- Claim C4 witness: toggling from `ShowUnread` over the one-entry store
flips the mode to `ShowAll`, selects row 0 and loads that entry. -/
theorem claim_c4_witness :
    c4res.read_mode = otherMode app0.read_mode ∧
    c4res.entries.items = [e1] ∧
    c4res.entries.selected = some 0 ∧
    c4res.current_entry = some e1 :=
  have h := claim_c4_toggle_read_mode_list_panels gOK app0 c4res f1 [e1]
    e1 e1 [] (Or.inl rfl) rfl rfl rfl
  ⟨h.1, h.2.1, h.2.2.2.1 rfl, h.2.2.2.2 rfl rfl⟩

/-- Claim C5 (confirmed): in the `Feeds` panel, move-right with a non-empty
entries list switches to `Entries`, selects row 0 and loads that row's
entry as the current entry; with an empty entries list it does nothing and
raises no error. -/
theorem claim_c5_on_right_from_feeds (g : Gateway W) (h2t : String → String)
    (app : App W) (e0 en : Entry) (rest : List Entry)
    (hsel : app.selected = Selected.feeds) :
    (app.entries.items = [] → on_right g h2t app = Step.ok app) ∧
    (app.entries.items = e0 :: rest →
      g.get_entry app.conn e0.id = Except.ok en →
      on_right g h2t app = Step.ok
        { app with selected := Selected.entries,
                   entries := app.entries.select (some 0),
                   current_entry := some en }) := by
  constructor
  · intro hempty
    unfold on_right
    rw [hsel]
    dsimp only
    rw [hempty]
    rfl
  · intro hitems hge
    unfold on_right
    rw [hsel]
    dsimp only
    rw [hitems]
    dsimp only [List.isEmpty]
    unfold get_selected_entry
    simp only [StatefulList.select, hitems]
    simp [hge]

/-- Claim C5 witness: from `app0` the move-right action enters `Entries`,
selects row 0 and loads entry `e1`. -/
theorem claim_c5_witness :
    on_right gOK h2tId app0 = Step.ok
      { app0 with selected := Selected.entries,
                  entries := app0.entries.select (some 0),
                  current_entry := some e1 } :=
  (claim_c5_on_right_from_feeds gOK h2tId app0 e1 e1 [] rfl).2 rfl rfl

/-- Claim C6 counterexample: at the `u16` maximum scroll 65535, move-down
does not increment the scroll by 1 — `checked_add` yields `None` and the
scroll stays 65535 — contradicting the claim that move-down always
increments the scroll by 1. -/
theorem claim_c6_counterexample :
    appEntryMax.scroll = 65535 ∧
    on_down gOK appEntryMax = Step.ok appEntryMax ∧
    c6res.scroll = 65535 ∧ ¬ c6res.scroll = appEntryMax.scroll + 1 := by
  decide

/-- Claim C6 (corrected): in the `Entry` panel, move-up decrements the
scroll by 1 with a floor at 0 (at 0 it stays 0), and move-down increments
it by 1 except at the `u16` maximum 65535, where it leaves the scroll
unchanged; under every sequence of moves the scroll stays within
`[0, 65535]` (it is a natural number, so it never goes below 0). -/
theorem claim_c6_scroll_bounds (g : Gateway W) (app : App W) (e : Entry)
    (moves : List Bool) (hsel : app.selected = Selected.entry e) :
    on_up g app = Step.ok { app with scroll := app.scroll - 1 } ∧
    (app.scroll = 0 → on_up g app = Step.ok app) ∧
    (app.scroll < 65535 →
      on_down g app = Step.ok { app with scroll := app.scroll + 1 }) ∧
    (65535 ≤ app.scroll → on_down g app = Step.ok app) ∧
    (app.scroll ≤ 65535 →
      (applyMoves g moves app).scroll ≤ 65535 ∧
      (applyMoves g moves app).selected = Selected.entry e) := by
  refine ⟨on_up_entry g app e hsel, ?_,
          fun hlt => on_down_entry_lt g app e hsel hlt,
          fun hge => on_down_entry_max g app e hsel hge,
          fun hb => applyMoves_entry_bound g moves app e hsel hb⟩
  intro h0
  rw [on_up_entry g app e hsel]
  have h1 : app.scroll - 1 = app.scroll := by omega
  rw [h1]

/-- Claim C6 witness: at scroll 5 in the `Entry` panel, move-up goes to 4,
move-down to 6, and a concrete move sequence stays within the bound. -/
theorem claim_c6_witness :
    on_up gOK appEntry = Step.ok { appEntry with scroll := appEntry.scroll - 1 } ∧
    on_down gOK appEntry = Step.ok { appEntry with scroll := appEntry.scroll + 1 } ∧
    (applyMoves gOK [false, true, true] appEntry).scroll ≤ 65535 :=
  have h := claim_c6_scroll_bounds gOK appEntry e1 [false, true, true] rfl
  ⟨h.1, h.2.2.1 (by decide), (h.2.2.2.2 (by decide)).1⟩

/-- Claim C7 counterexample: with no subscribed feeds there is no feed
selection, and the refresh action panics
(`self.feed_titles.state.selected().unwrap()`) instead of completing or
returning a typed error, contradicting the claim that refresh never
panics. -/
theorem claim_c7_counterexample :
    appNoFeeds.feed_titles.items = [] ∧
    appNoFeeds.feed_titles.selected = none ∧
    on_refresh gOK appNoFeeds = Step.panic := ⟨rfl, rfl, rfl⟩

/-- Claim C7 (corrected): with a feed selection that is a valid index into
the feed-titles list, refresh asks the store to refresh the selected feed's
entries and then reloads the current feed and entries, and it never panics:
a store failure surfaces as a typed error; without a selection (for example
with an empty feed-titles list) the refresh action panics. -/
theorem claim_c7_refresh_with_selection (g : Gateway W) (app : App W)
    (i : Nat) (fid : Int) (t : String) (w : W) (e : Error)
    (hsel : app.feed_titles.selected = some i)
    (hitem : app.feed_titles.items.get? i = some (fid, t)) :
    on_refresh g app ≠ Step.panic ∧
    (g.refresh_feed app.conn fid = Except.error e →
      on_refresh g app = Step.err e app) ∧
    (g.refresh_feed app.conn fid = Except.ok w →
      on_refresh g app = update_current_feed_and_entries g
        { app with conn := w }) := by
  have hshape : on_refresh g app =
      match g.refresh_feed app.conn fid with
      | Except.error er => Step.err er app
      | Except.ok w' =>
          update_current_feed_and_entries g { app with conn := w' } := by
    unfold on_refresh
    rw [hsel]
    dsimp only
    rw [hitem]
  refine ⟨?_, ?_, ?_⟩
  · rw [hshape]
    rcases hr : g.refresh_feed app.conn fid with er | w'
    · simp
    · exact update_current_feed_and_entries_no_panic g _ i (fid, t) hsel hitem
  · intro hr
    rw [hshape, hr]
  · intro hr
    rw [hshape, hr]

/-- Claim C7 witness: with feed 1 selected at row 0, refresh does not panic
and runs the store refresh followed by the combined reload. -/
theorem claim_c7_witness :
    on_refresh gOK app0 ≠ Step.panic ∧
    on_refresh gOK app0 =
      update_current_feed_and_entries gOK { app0 with conn := () } :=
  have h := claim_c7_refresh_with_selection gOK app0 0 1 "F1" ()
    Error.storage rfl rfl
  ⟨h.1, h.2.2 rfl⟩

/-- Claim C8 (confirmed): in the `Feeds` or `Entries` panel, performing the
toggle-read-mode action twice returns the read mode to its original value,
whatever states the store leaves behind (the flip happens before any store
call, so it survives even failing reloads). -/
theorem claim_c8_toggle_read_mode_involutive (g : Gateway W)
    (app s1 s2 : App W)
    (hsel : app.selected = Selected.feeds ∨ app.selected = Selected.entries)
    (h1 : (toggle_read_mode g app).state? = some s1)
    (h2 : (toggle_read_mode g s1).state? = some s2) :
    s2.read_mode = app.read_mode := by
  obtain ⟨hs1, hr1⟩ := toggle_read_mode_state g app s1 h1
  obtain ⟨hs2, hr2⟩ := toggle_read_mode_state g s1 s2 h2
  rw [toggle_mode_flip_list app hsel] at hr1
  have hsel1 : s1.selected = Selected.feeds ∨ s1.selected = Selected.entries := by
    rw [hs1]; exact hsel
  rw [toggle_mode_flip_list s1 hsel1] at hr2
  simp only at hr1 hr2
  rw [hr2, hr1, otherMode_otherMode]

/-- Claim C8 witness: two concrete toggles from `app0` end with the
original `ShowUnread` mode. -/
theorem claim_c8_witness : c8res.read_mode = app0.read_mode :=
  claim_c8_toggle_read_mode_involutive gOK app0 c4res c8res (Or.inl rfl)
    rfl rfl

/-- Claim C9 (confirmed): in the `Entry` panel, toggle-read-mode leaves the
read mode (and the panel) unchanged, but still reloads the entries list
under the unchanged filter, resets its selection to row 0 when non-empty
and clears it when empty, and replaces the current entry from the new
selection — it is not a no-op on the rest of the state. -/
theorem claim_c9_toggle_read_mode_entry_panel (g : Gateway W)
    (app app' : App W) (e : Entry) (f : Feed) (l : List Entry)
    (e0 en : Entry) (rest : List Entry)
    (hsel : app.selected = Selected.entry e)
    (hf : app.current_feed = some f)
    (hl : g.get_entries app.conn app.read_mode f.id = Except.ok l)
    (hres : toggle_read_mode g app = Step.ok app') :
    app'.read_mode = app.read_mode ∧ app'.selected = Selected.entry e ∧
    app'.entries.items = l ∧
    (l = [] → app'.entries.selected = none ∧
      app'.current_entry = app.current_entry) ∧
    (l = e0 :: rest → app'.entries.selected = some 0) ∧
    (l = e0 :: rest → g.get_entry app.conn e0.id = Except.ok en →
      app'.current_entry = some en) := by
  unfold toggle_read_mode at hres
  rw [toggle_mode_flip_entry app e hsel] at hres
  obtain ⟨m, huce, hrsel⟩ := Step.andThen_ok hres
  rw [update_current_entries_ok_char g app f l hf hl] at huce
  simp only [Step.ok.injEq] at huce
  subst huce
  cases l with
  | nil =>
      rw [toggle_reselect_nil g _ (by rfl)] at hrsel
      simp only [Step.ok.injEq] at hrsel
      subst hrsel
      simp [StatefulList.select, hsel]
  | cons hd tl =>
      rw [toggle_reselect_cons g _ hd tl (by rfl)] at hrsel
      rcases hge : g.get_entry app.conn hd.id with er | en' <;>
        simp only [hge] at hrsel
      · simp at hrsel
      · simp only [Step.ok.injEq] at hrsel
        subst hrsel
        refine ⟨rfl, hsel, rfl, by simp, ?_, ?_⟩
        · intro hcons
          simp [StatefulList.select]
        · intro hcons hgee
          cases hcons
          rw [hge] at hgee
          simp only [Except.ok.injEq] at hgee
          subst hgee
          rfl

/-- Claim C9 witness: toggling read-mode while reading `e1` over the
empty-feed store keeps `ShowUnread` and the `Entry` panel, empties and
deselects the entries list, and leaves the current entry alone. -/
theorem claim_c9_witness :
    c9res.read_mode = appEntry.read_mode ∧
    c9res.selected = Selected.entry e1 ∧
    c9res.entries.items = ([] : List Entry) ∧
    c9res.entries.selected = none ∧
    c9res.current_entry = appEntry.current_entry :=
  have h := claim_c9_toggle_read_mode_entry_panel gEmpty appEntry c9res e1
    f1 [] e1 e1 [] rfl rfl rfl rfl
  ⟨h.1, h.2.1, h.2.2.1, (h.2.2.2.1 rfl).1, (h.2.2.2.1 rfl).2⟩

/-- Claim C10 (confirmed): a freshly constructed app whose initial reloads
succeed starts in the `Feeds` panel with read mode `ShowUnread`, input mode
`Normal`, scroll 0, remembered entry position 0, no current entry and the
quit flag clear. -/
theorem claim_c10_initial_state (g : Gateway W) (conn : W) (app : App W)
    (h : App.new g conn = Step.ok app) :
    app.selected = Selected.feeds ∧ app.read_mode = ReadMode.showUnread ∧
    app.mode = Mode.normal ∧ app.scroll = 0 ∧
    app.entry_selection_position = 0 ∧ app.current_entry = none ∧
    app.should_quit = false := by
  unfold App.new at h
  dsimp only at h
  obtain ⟨m1, h1, h2⟩ := Step.andThen_ok h
  unfold update_current_feed_and_entries at h2
  obtain ⟨m2, h2a, h2b⟩ := Step.andThen_ok h2
  have f1 := update_feed_titles_state g _ m1 (by rw [h1]; rfl)
  have f2 := update_current_feed_state g m1 m2 (by rw [h2a]; rfl)
  have f3 := update_current_entries_state g m2 app (by rw [h2b]; rfl)
  obtain ⟨⟨a1, a2, a3, a4, a5, a6, _⟩, a9, _⟩ := f1
  obtain ⟨⟨b1, b2, b3, b4, b5, b6, _⟩, b9, _⟩ := f2
  obtain ⟨⟨d1, d2, d3, d4, d5, d6, _⟩, d9, _⟩ := f3
  simp_all

/-- Claim C10 witness: construction over the one-feed store succeeds and
satisfies every initial-state conjunct. -/
theorem claim_c10_witness :
    c10res.selected = Selected.feeds ∧
    c10res.read_mode = ReadMode.showUnread ∧
    c10res.mode = Mode.normal ∧ c10res.scroll = 0 ∧
    c10res.entry_selection_position = 0 ∧ c10res.current_entry = none ∧
    c10res.should_quit = false :=
  claim_c10_initial_state gOK () c10res rfl

end Russ
